import Mathlib

/-!
# Verification of the DataBackup reconciler

A shallow embedding of `pkg/controllers/v1alpha1/databackup/implement.go`:
the Pending-phase reconciler (conflict detection, runtime readiness, path
check, dataset lock acquisition), the Executing-phase reconciler (master pod
resolution, helm install, backup-pod monitoring and duration computation),
the deletion reconciler, and `generateDataBackupValueFile` (image fallback
resolution and value-file production).

External collaborators (kube client, helm, runtime probes, the filesystem)
are modelled by environment records whose fields carry the outcome of each
external call made during one reconciliation; the embedded functions are
pure functions of the request, the dataset and that environment, returning
the requeue directive together with every status write they persisted.
-/

namespace DataBackupVerify

/-- A `v1alpha1.Condition` as written by the reconciler. Times are modelled
as integers (Unix-style instants). -/
structure Condition where
  ctype : String
  status : String
  reason : String
  message : String
  lastProbeTime : Int
  lastTransitionTime : Int
deriving Repr, DecidableEq

/-- The phase of a DataBackup (`common.Phase*` string constants). -/
inductive Phase where
  | pending
  | executing
  | complete
  | failed
deriving Repr, DecidableEq

/-- The mutable status of a DataBackup: phase, conditions list (overwritten,
not appended, on each phase-changing update) and the computed duration. -/
structure DataBackupStatus where
  phase : Phase
  conditions : List Condition
  duration : Int
deriving Repr, DecidableEq

/-- An optional run-as identity (`*v1alpha1.User`); `UID`/`GID` pointers are
modelled as plain integers. -/
structure User where
  uid : Int
  gid : Int
deriving Repr, DecidableEq

/-- The immutable spec of a DataBackup. -/
structure DataBackupSpec where
  dataset : String
  backupPath : String
  runAs : Option User
deriving Repr, DecidableEq

/-- A DataBackup request object (the fields `implement.go` reads). -/
structure DataBackup where
  name : String
  nspace : String
  creationTimestamp : Int
  finalizers : List String
  hasDeletionTimestamp : Bool
  spec : DataBackupSpec
  status : DataBackupStatus
deriving Repr, DecidableEq

/-- One bound runtime entry of `Dataset.Status.Runtimes`. -/
structure RuntimeBinding where
  rtype : String
  category : String
  masterReplicas : Int
deriving Repr, DecidableEq, Inhabited

/-- The dataset status fields the reconciler touches: the lock field
`DataBackupRef` and the bound runtimes. -/
structure DatasetStatus where
  dataBackupRef : String
  runtimes : List RuntimeBinding
deriving Repr, DecidableEq

/-- A Dataset object. -/
structure Dataset where
  name : String
  nspace : String
  status : DatasetStatus
deriving Repr, DecidableEq

/-- `common.AccelerateCategory`. Modelled from the spec: the category tag
carried by the one runtime binding relevant to backup. -/
def accelerateCategory : String := "Accelerate"

/-- `common.AlluxioRuntime` runtime-type tag. -/
def alluxioRuntimeType : String := "alluxio"

/-- `common.GooseFSRuntime` runtime-type tag. -/
def goosefsRuntimeType : String := "goosefs"

/-- `common.PathScheme`. Modelled from the spec: the local-volume-relative
backup path scheme. -/
def pathScheme : String := "local://"

/-- `common.VolumeScheme`. Modelled from the spec: the
persistent-volume-claim-relative backup path scheme. -/
def volumeScheme : String := "pvc://"

/-- Go's `strings.HasPrefix`, written structurally so that concrete
instances reduce inside the kernel. -/
def goStartsWith (s pre : String) : Bool :=
  List.isPrefixOf pre.data s.data

/-- `utils.GetDataBackupRef`. Modelled from the spec: the opaque lock
reference identifying a request, a namespace/name encoding. -/
def getDataBackupRef (name nspace : String) : String :=
  nspace ++ "-" ++ name

/-- `utils.GetRuntimeByCategory`. Modelled from the spec: returns the index
and the binding of the first runtime carrying the category, or index `-1`
(and a zero-valued binding) when none does. -/
def getRuntimeByCategory (runtimes : List RuntimeBinding) (category : String) :
    Int × RuntimeBinding :=
  go 0 runtimes
where
  go : Nat → List RuntimeBinding → Int × RuntimeBinding
    | _, [] => (-1, ⟨"", "", 0⟩)
    | i, r :: rest => if r.category = category then ((i : Int), r) else go (i + 1) rest

/-- The scheduling directive a reconciliation returns: `ctrl.Result` paired
with the returned error. `onError` is `utils.RequeueIfError` with a non-nil
error; `afterInterval` carries the delay in seconds. -/
inductive RequeueResult where
  | immediately
  | afterInterval (seconds : Nat)
  | onError
  | noRequeue
deriving Repr, DecidableEq

/-- Outcomes of the external calls one Pending-phase reconciliation makes:
whether the runtime probe reports ready, whether the two conditional status
writes are accepted, and the current wall-clock time. -/
structure PendingEnv where
  ready : Bool
  dbStatusUpdateOk : Bool
  datasetStatusUpdateOk : Bool
  now : Int
deriving Repr, DecidableEq

/-- What one Pending-phase reconciliation returned and persisted: the
requeue directive, the DataBackup status write that was accepted (if any)
and the Dataset status write that was accepted (if any). -/
structure PendingOutcome where
  result : RequeueResult
  dbStatus : Option DataBackupStatus
  dsStatus : Option DatasetStatus
deriving Repr, DecidableEq

/-- `reconcilePendingDataBackup` (implement.go:99-205): conflict detection
against the dataset's `DataBackupRef`, runtime readiness probe, backup-path
scheme check, conditional lock write, then the phase write to Executing. -/
def reconcilePendingDataBackup (db : DataBackup) (ds : Dataset) (env : PendingEnv) :
    PendingOutcome :=
  -- 1. check for a conflicting DataBackup holding the dataset's lock
  let conflictDataBackupRef := ds.status.dataBackupRef
  let myDataBackupRef := getDataBackupRef db.name db.nspace
  if conflictDataBackupRef.length ≠ 0 ∧ conflictDataBackupRef ≠ myDataBackupRef then
    let databackupToUpdate : DataBackupStatus :=
      { db.status with
        conditions := [⟨"Failed", "True", "conflictDataBackupRef",
          "Found other DataBackup that is in Executing phase", env.now, env.now⟩],
        phase := Phase.failed }
    if env.dbStatusUpdateOk then
      ⟨RequeueResult.immediately, some databackupToUpdate, none⟩
    else
      ⟨RequeueResult.onError, none, none⟩
  else
    -- 2. check whether the bounded runtime is ready
    let boundedRuntime := (getRuntimeByCategory ds.status.runtimes accelerateCategory).2
    let ready :=
      if boundedRuntime.rtype = alluxioRuntimeType then env.ready
      else if boundedRuntime.rtype = goosefsRuntimeType then env.ready
      else false
    if ready = false then
      ⟨RequeueResult.afterInterval 20, none, none⟩
    else
      -- 3. check the path scheme
      if ¬ goStartsWith db.spec.backupPath pathScheme ∧
          ¬ goStartsWith db.spec.backupPath volumeScheme then
        let databackupToUpdate : DataBackupStatus :=
          { db.status with
            conditions := [⟨"Failed", "True", "PathNotSupported",
              "Only support pvc and local path now", env.now, env.now⟩],
            phase := Phase.failed }
        if env.dbStatusUpdateOk then
          ⟨RequeueResult.immediately, some databackupToUpdate, none⟩
        else
          ⟨RequeueResult.onError, none, none⟩
      else
        -- 3'. lock the target dataset by a conditional status write
        let datasetToUpdate : DatasetStatus :=
          { ds.status with dataBackupRef := myDataBackupRef }
        let writeNeeded := ds.status ≠ datasetToUpdate
        if writeNeeded ∧ env.datasetStatusUpdateOk = false then
          ⟨RequeueResult.afterInterval 20, none, none⟩
        else
          let dsWritten : Option DatasetStatus :=
            if writeNeeded then some datasetToUpdate else none
          -- 4. update phase to Executing
          let dataBackupToUpdate : DataBackupStatus :=
            { db.status with phase := Phase.executing }
          if env.dbStatusUpdateOk then
            ⟨RequeueResult.immediately, some dataBackupToUpdate, dsWritten⟩
          else
            ⟨RequeueResult.onError, none, dsWritten⟩

/-- A pod condition: the reconciler only reads `LastTransitionTime`. -/
structure PodCondition where
  lastTransitionTime : Int
deriving Repr, DecidableEq

/-- A pod as observed by the Job Monitor: its phase string and its status
conditions. -/
structure Pod where
  phase : String
  conditions : List PodCondition
deriving Repr, DecidableEq

/-- `kubeclient.IsSucceededPod`. Modelled from the spec: the terminal pod
has succeeded. -/
def isSucceededPod (pod : Pod) : Bool := pod.phase == "Succeeded"

/-- `kubeclient.IsFailedPod`. Modelled from the spec: the terminal pod has
failed. -/
def isFailedPod (pod : Pod) : Bool := pod.phase == "Failed"

/-- `utils.CalculateDuration`. Modelled from the spec: the wall-clock span
from the request's creation to the terminal transition. -/
def calculateDuration (creation terminal : Int) : Int := terminal - creation

/-- Outcomes of the external calls one Executing-phase reconciliation makes:
the leader query (`MasterPodName`, used only in HA mode), the master-pod
get, the helm release check, value-file generation (abstracted here by its
result; it is embedded in full as `generateDataBackupValueFile` below), the
helm install, the backup-pod get, the status write, and the clock. -/
structure ExecutingEnv where
  masterPodNameResult : Except Unit String
  getMasterPod : Except Unit Pod
  checkRelease : Except Unit Bool
  genValueFile : Except Unit String
  installOk : Bool
  getBackupPod : Except Unit Pod
  dbStatusUpdateOk : Bool
  now : Int
deriving Repr

/-- What one Executing-phase reconciliation returned and persisted, plus
how the master pod name was resolved: `resolvedPodName` is the name the
reconciler went on to use (none when it bailed out before resolving it) and
`queriedMaster` records whether the runtime was queried for its leader. -/
structure ExecutingOutcome where
  result : RequeueResult
  dbStatus : Option DataBackupStatus
  resolvedPodName : Option String
  queriedMaster : Bool
deriving Repr, DecidableEq

/-- The terminal timestamp the Job Monitor uses (implement.go:294-300 and
321-327): the first recorded pod status condition's `LastTransitionTime`,
falling back to the current time when the pod has no conditions. -/
def terminalTime (pod : Pod) (now : Int) : Int :=
  match pod.conditions with
  | [] => now
  | c :: _ => c.lastTransitionTime

/-- Steps 2-3 of `reconcileExecutingDataBackup` (implement.go:247-346):
fetch the master pod, install the helm chart when absent, otherwise inspect
the backup pod and on success/failure write the terminal status with the
computed duration. -/
def executingAfterResolve (db : DataBackup) (env : ExecutingEnv)
    (podName : String) (queried : Bool) : ExecutingOutcome :=
  match env.getMasterPod with
  | Except.error _ => ⟨RequeueResult.onError, none, some podName, queried⟩
  | Except.ok _ =>
    match env.checkRelease with
    | Except.error _ => ⟨RequeueResult.onError, none, some podName, queried⟩
    | Except.ok existed =>
      if existed = false then
        match env.genValueFile with
        | Except.error _ => ⟨RequeueResult.onError, none, some podName, queried⟩
        | Except.ok _ =>
          if env.installOk then
            ⟨RequeueResult.afterInterval 20, none, some podName, queried⟩
          else
            ⟨RequeueResult.onError, none, some podName, queried⟩
      else
        match env.getBackupPod with
        | Except.error _ => ⟨RequeueResult.onError, none, some podName, queried⟩
        | Except.ok backupPod =>
          if isSucceededPod backupPod then
            let successTime : Int := terminalTime backupPod env.now
            let databackupToUpdate : DataBackupStatus :=
              { phase := Phase.complete,
                duration := calculateDuration db.creationTimestamp successTime,
                conditions := [⟨"Complete", "True", "BackupSuccessful",
                  "Backup Pod exec successfully and finish", env.now, successTime⟩] }
            if env.dbStatusUpdateOk then
              ⟨RequeueResult.immediately, some databackupToUpdate, some podName, queried⟩
            else
              ⟨RequeueResult.onError, none, some podName, queried⟩
          else if isFailedPod backupPod then
            let failedTime : Int := terminalTime backupPod env.now
            let databackupToUpdate : DataBackupStatus :=
              { phase := Phase.failed,
                duration := calculateDuration db.creationTimestamp failedTime,
                conditions := [⟨"Failed", "True", "BackupFailed",
                  "Backup Pod exec failed and exit", env.now, failedTime⟩] }
            if env.dbStatusUpdateOk then
              ⟨RequeueResult.immediately, some databackupToUpdate, some podName, queried⟩
            else
              ⟨RequeueResult.onError, none, some podName, queried⟩
          else
            ⟨RequeueResult.afterInterval 20, none, some podName, queried⟩

/-- `reconcileExecutingDataBackup` (implement.go:208-347): resolve the
master pod name (deterministic when `MasterReplicas <= 1`, leader query for
supported runtime types otherwise), then run `executingAfterResolve`. -/
def reconcileExecutingDataBackup (db : DataBackup) (ds : Dataset) (env : ExecutingEnv) :
    ExecutingOutcome :=
  let boundedRuntime := (getRuntimeByCategory ds.status.runtimes accelerateCategory).2
  if boundedRuntime.masterReplicas ≤ 1 then
    executingAfterResolve db env (ds.name ++ "-master-0") false
  else
    if boundedRuntime.rtype = alluxioRuntimeType ∨ boundedRuntime.rtype = goosefsRuntimeType then
      match env.masterPodNameResult with
      | Except.error _ => ⟨RequeueResult.onError, none, none, true⟩
      | Except.ok podName => executingAfterResolve db env podName true
    else
      -- unsupported runtime type in HA mode: the switch only logs and emits
      -- an event; err stays nil and podName stays empty
      executingAfterResolve db env "" false

/-- `cdatabackup.Finalizer`. Modelled from the spec: the finalizer marker
token present while cleanup is pending. -/
def dataBackupFinalizer : String := "fluid-databackup"

/-- `utils.RemoveString`. Modelled from the spec: removes the marker from
the finalizer list. -/
def removeString (l : List String) (s : String) : List String :=
  l.filter (fun x => x ≠ s)

/-- Outcomes of the external calls the deletion reconciler makes. -/
structure DeletionEnv where
  deleteReleaseOk : Bool
  releaseLockOk : Bool
  updateOk : Bool
deriving Repr, DecidableEq

/-- What one deletion reconciliation did: the requeue directive, which of
the three steps completed, and the finalizer list that was persisted. -/
structure DeletionOutcome where
  result : RequeueResult
  releaseDeleted : Bool
  lockReleased : Bool
  finalizerRemoved : Bool
  finalizers : List String
deriving Repr, DecidableEq

/-- `ReconcileDataBackupDeletion` (implement.go:68-96): delete the helm
release, release the dataset lock, then remove the finalizer and persist;
each step's failure aborts the sequence with `RequeueIfError`. -/
def ReconcileDataBackupDeletion (db : DataBackup) (env : DeletionEnv) : DeletionOutcome :=
  -- 1. delete release if exists
  if env.deleteReleaseOk = false then
    ⟨RequeueResult.onError, false, false, false, db.finalizers⟩
  else
    -- 2. release lock on target dataset if necessary
    if env.releaseLockOk = false then
      ⟨RequeueResult.onError, true, false, false, db.finalizers⟩
    else
      -- 3. remove finalizer
      if db.hasDeletionTimestamp then
        let finalizers := removeString db.finalizers dataBackupFinalizer
        if env.updateOk then
          ⟨RequeueResult.noRequeue, true, true, true, finalizers⟩
        else
          ⟨RequeueResult.onError, true, true, false, db.finalizers⟩
      else
        ⟨RequeueResult.noRequeue, true, true, false, db.finalizers⟩

/-- Splits a character list at every occurrence of `sep`; the result always
has one more part than there are separators. -/
def splitOnCharAux (sep : Char) : List Char → List (List Char)
  | [] => [[]]
  | c :: rest =>
    let r := splitOnCharAux sep rest
    if c = sep then [] :: r
    else
      match r with
      | [] => [[c]]
      | h :: t => (c :: h) :: t

/-- Go's `strings.Split` with a one-character separator: splits around each
occurrence; splitting the empty string yields `[""]`. -/
def goSplit (s : String) (sep : Char) : List String :=
  (splitOnCharAux sep s.data).map (fun cs => String.mk cs)

/-- The outcome of one image name/tag fallback block of
`generateDataBackupValueFile` (implement.go:392-401 with index 0, and
implement.go:412-421 with index 1): `emptyReturn` is the naked `return`
taken when `len(defaultImageInfo) < 1` (which returns a nil error), and
`panicked` is an index out of range on `defaultImageInfo[idx]`. -/
inductive ImageStep where
  | ok (s : String)
  | emptyReturn
  | panicked
deriving Repr, DecidableEq

/-- One fallback block: use the environment-supplied override when present,
otherwise split the hard-coded default image on `':'` and index the piece. -/
def resolveImageFromDefault (fromEnv defaultImage : String) (idx : Nat) : ImageStep :=
  if fromEnv.length = 0 then
    let defaultImageInfo := goSplit defaultImage ':'
    if defaultImageInfo.length < 1 then
      ImageStep.emptyReturn
    else
      match defaultImageInfo.get? idx with
      | none => ImageStep.panicked
      | some s => ImageStep.ok s
  else
    ImageStep.ok fromEnv

/-- `common.AlluxioRuntimeImageEnv`. Modelled from the spec: the name of
the environment override for the default alluxio worker image. -/
def alluxioRuntimeImageEnv : String := "ALLUXIO_RUNTIME_IMAGE_ENV"

/-- `common.GooseFSRuntimeImageEnv`. Modelled from the spec: the name of
the environment override for the default goosefs worker image. -/
def goosefsRuntimeImageEnv : String := "GOOSEFS_RUNTIME_IMAGE_ENV"

/-- Joins path segments with `/` (Go's `strings.Join(tail, "/")`). -/
def joinSlash : List String → String
  | [] => ""
  | [x] => x
  | x :: rest => x ++ "/" ++ joinSlash rest

/-- `utils.ParseBackupRestorePath`. Modelled from the spec: splits the
backup path into a volume-claim name and an in-volume path per the
recognized schemes; an unrecognized scheme is an error. -/
def parseBackupRestorePath (p : String) : Except Unit (String × String) :=
  if goStartsWith p volumeScheme then
    match goSplit (String.mk (p.data.drop volumeScheme.length)) '/' with
    | [] => Except.error ()
    | pvc :: tail => Except.ok (pvc, "/" ++ joinSlash tail)
  else if goStartsWith p pathScheme then
    Except.ok ("", String.mk (p.data.drop pathScheme.length))
  else
    Except.error ()

/-- `utils.GetInitUserEnv`. Modelled from the spec: the environment string
describing the run-as identity for the init-users side-job. -/
def getInitUserEnv (u : User) : String :=
  toString u.uid ++ ":" ++ toString u.gid

/-- `utils.GetBackupUserDir`. Modelled from the spec: the init-users
directory derived from the request's namespace and name. -/
def getBackupUserDir (nspace name : String) : String :=
  "/tmp/passwd/" ++ nspace ++ "/" ++ name

/-- The `InitUsers` spec fields of an AlluxioRuntime object. -/
structure InitUsersSpec where
  image : String
  imageTag : String
  imagePullPolicy : String
deriving Repr, DecidableEq

/-- The fields of an AlluxioRuntime object that
`generateDataBackupValueFile` reads (`Spec.RunAs`, `Spec.InitUsers`); the
zero value stands for a runtime that could not be fetched. -/
structure AlluxioRuntimeSpec where
  runAs : Option User
  initUsers : InitUsersSpec
deriving Repr, DecidableEq

/-- The zero value of `v1alpha1.AlluxioRuntime` (used when `r.Get` fails). -/
def zeroAlluxioRuntimeSpec : AlluxioRuntimeSpec :=
  ⟨none, ⟨"", "", ""⟩⟩

/-- `cdatabackup.DataBackup`: the per-request section of the value file. -/
structure DataBackupInfo where
  nspace : String
  dataset : String
  name : String
  nodeName : String
  image : String
  javaEnv : String
  workdir : String
  runtimeType : String
  pvcName : String
  path : String
deriving Repr, DecidableEq

/-- `common.InitUsers`: the init-users section of the value file. -/
structure InitUsersValue where
  enabled : Bool
  envUsers : String
  dir : String
  image : String
  imageTag : String
  imagePullPolicy : String
deriving Repr, DecidableEq

/-- `common.UserInfo`: the run-as section of the value file. -/
structure UserInfo where
  user : Int
  group : Int
  fsGroup : Int
deriving Repr, DecidableEq

/-- `cdatabackup.DataBackupValue`: the whole value file. -/
structure DataBackupValue where
  dataBackup : DataBackupInfo
  initUsers : InitUsersValue
  userInfo : UserInfo
deriving Repr, DecidableEq

/-- The distinct error returns of `generateDataBackupValueFile` (each is a
non-nil error handed back to the caller). -/
inductive GenError where
  | getDataset
  | noBoundedRuntime
  | parsePath
  | marshal
  | tempFile
  | writeFile
deriving Repr, DecidableEq

/-- The result of `generateDataBackupValueFile`: a value file name with the
serialized value, a non-nil error, the naked `return` of the dead
`len(defaultImageInfo) < 1` guards (which yields `("", nil)`), or a panic
(index out of range in the image fallback). -/
inductive GenResult where
  | ok (fileName : String) (value : DataBackupValue)
  | err (e : GenError)
  | emptyReturn
  | panicked
deriving Repr, DecidableEq

/-- Outcomes of the external calls `generateDataBackupValueFile` makes:
the master pod's address, the dataset get, the running worker's image
(`docker.GetWorkerImage`), the environment image overrides, the hard-coded
default image references (parameters: their concrete values live outside
this file's sources), the workdir override, the AlluxioRuntime get, the
init-image resolution (`docker.ParseInitImage`) and the I/O steps. -/
structure GenEnv where
  nodeName : String
  ip : String
  rpcPort : Int
  getDataset : Except Unit Dataset
  workerImage : String × String
  getImageRepoFromEnv : String → String
  getImageTagFromEnv : String → String
  defaultAlluxioImage : String
  defaultGooseFSImage : String
  workdirEnv : String
  getRuntime : Except Unit AlluxioRuntimeSpec
  parseInitImage : String → String → String → String × String × String
  marshalOk : Bool
  tempFileResult : Except Unit String
  writeFileOk : Bool

/-- The `imageEnv`/`defaultImage` pair chosen by the fallback blocks of
`generateDataBackupValueFile` (implement.go:385-391 and 405-411); both stay
empty for an unsupported runtime type. -/
def imageFallbackDefaults (runtimeType : String) (env : GenEnv) : String × String :=
  if runtimeType = alluxioRuntimeType then
    (alluxioRuntimeImageEnv, env.defaultAlluxioImage)
  else if runtimeType = goosefsRuntimeType then
    (goosefsRuntimeImageEnv, env.defaultGooseFSImage)
  else
    ("", "")

/-- `generateDataBackupValueFile` (implement.go:351-501): derive the worker
image (running worker image, then environment override, then hard-coded
default), the java environment and runtime type from the bound runtime;
split the backup path; resolve the run-as identity with precedence
`databackup.Spec.RunAs > runtime.Spec.RunAs > root`; then marshal and write
the value file. -/
def generateDataBackupValueFile (db : DataBackup) (env : GenEnv) : GenResult :=
  match env.getDataset with
  | Except.error _ => GenResult.err GenError.getDataset
  | Except.ok targetDataset =>
    let found := getRuntimeByCategory targetDataset.status.runtimes accelerateCategory
    if found.1 = -1 then
      GenResult.err GenError.noBoundedRuntime
    else
      let boundedRuntime := found.2
      let fields :=
        if boundedRuntime.rtype = alluxioRuntimeType then
          (env.workerImage.1, env.workerImage.2,
           "-Dalluxio.master.hostname=" ++ env.ip ++
             " -Dalluxio.master.rpc.port=" ++ toString env.rpcPort,
           alluxioRuntimeType)
        else if boundedRuntime.rtype = goosefsRuntimeType then
          (env.workerImage.1, env.workerImage.2,
           "-Dgoosefs.master.hostname=" ++ env.ip ++
             " -Dgoosefs.master.rpc.port=" ++ toString env.rpcPort,
           goosefsRuntimeType)
        else
          -- unsupported runtime type: log and emit a non-fatal event only
          ("", "", "", "")
      let imageName0 := fields.1
      let imageTag0 := fields.2.1
      let javaEnv := fields.2.2.1
      let runtimeType := fields.2.2.2
      let fallback := imageFallbackDefaults runtimeType env
      let nameStep :=
        if imageName0.length = 0 then
          resolveImageFromDefault (env.getImageRepoFromEnv fallback.1) fallback.2 0
        else
          ImageStep.ok imageName0
      match nameStep with
      | ImageStep.emptyReturn => GenResult.emptyReturn
      | ImageStep.panicked => GenResult.panicked
      | ImageStep.ok imageName =>
        let tagStep :=
          if imageTag0.length = 0 then
            resolveImageFromDefault (env.getImageTagFromEnv fallback.1) fallback.2 1
          else
            ImageStep.ok imageTag0
        match tagStep with
        | ImageStep.emptyReturn => GenResult.emptyReturn
        | ImageStep.panicked => GenResult.panicked
        | ImageStep.ok imageTag =>
          let image := imageName ++ ":" ++ imageTag
          let workdir := if env.workdirEnv = "" then "/tmp" else env.workdirEnv
          match parseBackupRestorePath db.spec.backupPath with
          | Except.error _ => GenResult.err GenError.parsePath
          | Except.ok parsed =>
            let info : DataBackupInfo :=
              { nspace := db.nspace, dataset := db.spec.dataset, name := db.name,
                nodeName := env.nodeName, image := image, javaEnv := javaEnv,
                workdir := workdir, runtimeType := runtimeType,
                pvcName := parsed.1, path := parsed.2 }
            let runtimeSpec :=
              match env.getRuntime with
              | Except.ok rt => rt
              | Except.error _ => zeroAlluxioRuntimeSpec
            let runAs0 :=
              match env.getRuntime with
              | Except.ok rt => rt.runAs
              | Except.error _ => none
            -- databackup.Spec.RunAs > runtime.Spec.RunAs > root
            let runAs :=
              match db.spec.runAs with
              | some u => some u
              | none => runAs0
            let sections : UserInfo × InitUsersValue :=
              match runAs with
              | some u =>
                (⟨u.uid, u.gid, 0⟩,
                 ⟨true, getInitUserEnv u, getBackupUserDir db.nspace db.name, "", "", ""⟩)
              | none => (⟨0, 0, 0⟩, ⟨false, "", "", "", "", ""⟩)
            let initImage := env.parseInitImage runtimeSpec.initUsers.image
              runtimeSpec.initUsers.imageTag runtimeSpec.initUsers.imagePullPolicy
            let value : DataBackupValue :=
              { dataBackup := info,
                initUsers := { sections.2 with
                  image := initImage.1, imageTag := initImage.2.1,
                  imagePullPolicy := initImage.2.2 },
                userInfo := sections.1 }
            if env.marshalOk = false then
              GenResult.err GenError.marshal
            else
              match env.tempFileResult with
              | Except.error _ => GenResult.err GenError.tempFile
              | Except.ok fileName =>
                if env.writeFileOk = false then
                  GenResult.err GenError.writeFile
                else
                  GenResult.ok fileName value

/-! ## Theorems -/

/-- The condition record the conflict branch writes. -/
def conflictCondition (now : Int) : Condition :=
  ⟨"Failed", "True", "conflictDataBackupRef",
    "Found other DataBackup that is in Executing phase", now, now⟩

/-- The condition record the unsupported-path branch writes. -/
def pathNotSupportedCondition (now : Int) : Condition :=
  ⟨"Failed", "True", "PathNotSupported",
    "Only support pvc and local path now", now, now⟩

/-- C1: a Pending reconciliation treats the request as conflicting exactly
when the dataset's `DataBackupRef` is non-empty and differs from the
request's own reference; in that case (and only in that case) it persists
`Phase = Failed` with the single `conflictDataBackupRef` condition, leaves
the dataset unwritten, and requeues immediately. -/
theorem pending_conflict_iff (db : DataBackup) (ds : Dataset) (env : PendingEnv)
    (hup : env.dbStatusUpdateOk = true) :
    (ds.status.dataBackupRef.length ≠ 0 ∧
        ds.status.dataBackupRef ≠ getDataBackupRef db.name db.nspace) ↔
      reconcilePendingDataBackup db ds env =
        ⟨RequeueResult.immediately,
          some { db.status with
            conditions := [conflictCondition env.now], phase := Phase.failed },
          none⟩ := by
  unfold reconcilePendingDataBackup
  constructor
  · intro hc
    rw [if_pos hc, if_pos hup]
    rfl
  · intro hout
    by_contra hc
    rw [if_neg hc] at hout
    dsimp only at hout
    repeat' split at hout
    all_goals
      simp only [conflictCondition, PendingOutcome.mk.injEq, Option.some.injEq,
        DataBackupStatus.mk.injEq, List.cons.injEq, Condition.mk.injEq,
        reduceCtorEq, and_false, false_and, and_true, true_and] at hout
    all_goals
      first
      | exact hout
      | exact absurd hout.1 (by decide)

/-- A concrete request: `r2` in namespace `ns`, unsupported backup path. -/
def dbR2 : DataBackup :=
  { name := "r2", nspace := "ns", creationTimestamp := 100,
    finalizers := [dataBackupFinalizer], hasDeletionTimestamp := false,
    spec := { dataset := "d", backupPath := "ftp://x", runAs := none },
    status := { phase := Phase.pending, conditions := [], duration := 0 } }

/-- A concrete dataset whose lock is held by request `r1`. -/
def dsLockedByR1 : Dataset :=
  { name := "d", nspace := "ns",
    status := { dataBackupRef := "ns-r1", runtimes := [⟨"alluxio", "Accelerate", 1⟩] } }

/-- A concrete Pending-phase environment: probe ready, all writes accepted. -/
def envAllOk : PendingEnv :=
  { ready := true, dbStatusUpdateOk := true, datasetStatusUpdateOk := true, now := 5 }

/-- C1 witness: the conflict characterization instantiated at request `r2`
against the dataset locked by `r1`. -/
theorem pending_conflict_iff_witness :
    reconcilePendingDataBackup dbR2 dsLockedByR1 envAllOk =
      ⟨RequeueResult.immediately,
        some { dbR2.status with
          conditions := [conflictCondition envAllOk.now], phase := Phase.failed },
        none⟩ :=
  (pending_conflict_iff dbR2 dsLockedByR1 envAllOk rfl).mp (by decide)

/-- C2 counterexample: request `r2` has an unrecognized backup path, yet its
first reconciliation (the dataset being locked by `r1`) persists `Failed`
with reason `conflictDataBackupRef`, not `PathNotSupported` — and `Failed`
is terminal, so the claimed `PathNotSupported` failure is never reached. -/
theorem pending_badpath_wrong_reason_counterexample :
    (¬ goStartsWith dbR2.spec.backupPath pathScheme ∧
      ¬ goStartsWith dbR2.spec.backupPath volumeScheme) ∧
    (reconcilePendingDataBackup dbR2 dsLockedByR1 envAllOk).dbStatus =
      some { phase := Phase.failed, conditions := [conflictCondition 5], duration := 0 } ∧
    (conflictCondition 5).reason ≠ "PathNotSupported" := by
  decide

/-- C2 amended: a Pending reconciliation of a request with an unrecognized
backup path never writes the dataset's status (so its `DataBackupRef` is
unchanged), and any request status it persists has `Phase = Failed`; when
the request does not conflict, the bound runtime is of a supported type and
ready, and the status write is accepted, that failure is exactly the
`PathNotSupported` one, with an immediate requeue. -/
theorem pending_badpath_no_lock (db : DataBackup) (ds : Dataset) (env : PendingEnv)
    (hpath : ¬ goStartsWith db.spec.backupPath pathScheme ∧
      ¬ goStartsWith db.spec.backupPath volumeScheme) :
    (reconcilePendingDataBackup db ds env).dsStatus = none ∧
    (∀ s, (reconcilePendingDataBackup db ds env).dbStatus = some s →
      s.phase = Phase.failed) ∧
    (¬(ds.status.dataBackupRef.length ≠ 0 ∧
          ds.status.dataBackupRef ≠ getDataBackupRef db.name db.nspace) →
      ((getRuntimeByCategory ds.status.runtimes accelerateCategory).2.rtype =
          alluxioRuntimeType ∨
        (getRuntimeByCategory ds.status.runtimes accelerateCategory).2.rtype =
          goosefsRuntimeType) →
      env.ready = true → env.dbStatusUpdateOk = true →
      reconcilePendingDataBackup db ds env =
        ⟨RequeueResult.immediately,
          some { db.status with
            conditions := [pathNotSupportedCondition env.now], phase := Phase.failed },
          none⟩) := by
  obtain ⟨hp1, hp2⟩ := hpath
  refine ⟨?_, ?_, ?_⟩
  · unfold reconcilePendingDataBackup
    dsimp only
    repeat' split
    all_goals simp_all
  · intro s hs
    unfold reconcilePendingDataBackup at hs
    dsimp only at hs
    repeat' split at hs
    all_goals simp_all
    all_goals simp [← hs]
  · intro hnc hsup hrdy hup
    unfold reconcilePendingDataBackup
    rw [if_neg hnc]
    dsimp only
    rcases hsup with h | h <;>
      simp [h, hrdy, hp1, hp2, hup, pathNotSupportedCondition,
        alluxioRuntimeType, goosefsRuntimeType]

/-- A concrete dataset that is unlocked (`DataBackupRef` empty). -/
def dsUnlocked : Dataset :=
  { name := "d", nspace := "ns",
    status := { dataBackupRef := "", runtimes := [⟨"alluxio", "Accelerate", 1⟩] } }

/-- C2 witness: the amended statement instantiated at the unsupported-path
request `r2` against an unlocked, ready dataset. -/
theorem pending_badpath_no_lock_witness :
    (reconcilePendingDataBackup dbR2 dsUnlocked envAllOk).dsStatus = none ∧
    reconcilePendingDataBackup dbR2 dsUnlocked envAllOk =
      ⟨RequeueResult.immediately,
        some { dbR2.status with
          conditions := [pathNotSupportedCondition envAllOk.now], phase := Phase.failed },
        none⟩ := by
  have h := pending_badpath_no_lock dbR2 dsUnlocked envAllOk (by decide)
  exact ⟨h.1, h.2.2 (by decide) (by decide) rfl rfl⟩

/-- A concrete request `r1` with a recognized (pvc) backup path. -/
def dbR1 : DataBackup :=
  { name := "r1", nspace := "ns", creationTimestamp := 100,
    finalizers := [dataBackupFinalizer], hasDeletionTimestamp := false,
    spec := { dataset := "d", backupPath := "pvc://claim/sub", runAs := none },
    status := { phase := Phase.pending, conditions := [], duration := 0 } }

/-- C3: during lock acquisition (no conflict, supported runtime ready,
recognized path), a rejected conditional dataset write leaves the request
untouched (no status is persisted, so the phase stays Pending) and requeues
after 20 seconds; when the write is accepted or unnecessary, the accepted
status write sets `Phase = Executing` and the reconciler requeues
immediately. -/
theorem pending_lock_acquisition (db : DataBackup) (ds : Dataset) (env : PendingEnv)
    (hnc : ¬(ds.status.dataBackupRef.length ≠ 0 ∧
      ds.status.dataBackupRef ≠ getDataBackupRef db.name db.nspace))
    (hsup : (getRuntimeByCategory ds.status.runtimes accelerateCategory).2.rtype =
        alluxioRuntimeType ∨
      (getRuntimeByCategory ds.status.runtimes accelerateCategory).2.rtype =
        goosefsRuntimeType)
    (hrdy : env.ready = true)
    (hpath : goStartsWith db.spec.backupPath pathScheme ∨
      goStartsWith db.spec.backupPath volumeScheme) :
    (ds.status ≠ { ds.status with dataBackupRef := getDataBackupRef db.name db.nspace } →
      env.datasetStatusUpdateOk = false →
      reconcilePendingDataBackup db ds env =
        ⟨RequeueResult.afterInterval 20, none, none⟩) ∧
    ((ds.status = { ds.status with dataBackupRef := getDataBackupRef db.name db.nspace } ∨
        env.datasetStatusUpdateOk = true) →
      env.dbStatusUpdateOk = true →
      (reconcilePendingDataBackup db ds env).result = RequeueResult.immediately ∧
      (reconcilePendingDataBackup db ds env).dbStatus =
        some { db.status with phase := Phase.executing }) := by
  unfold reconcilePendingDataBackup
  rw [if_neg hnc]
  dsimp only
  have hready :
      (if (getRuntimeByCategory ds.status.runtimes accelerateCategory).2.rtype =
          alluxioRuntimeType then env.ready
        else if (getRuntimeByCategory ds.status.runtimes accelerateCategory).2.rtype =
          goosefsRuntimeType then env.ready
        else false) = true := by
    rcases hsup with h | h <;>
      simp [h, hrdy, alluxioRuntimeType, goosefsRuntimeType]
  rw [hready]
  have hpathneg : ¬(¬ goStartsWith db.spec.backupPath pathScheme = true ∧
      ¬ goStartsWith db.spec.backupPath volumeScheme = true) := by
    rcases hpath with h | h <;> simp [h]
  rw [if_neg (by simp), if_neg hpathneg]
  constructor
  · intro hw hds
    rw [if_pos ⟨hw, hds⟩]
  · intro hok hup
    have hno : ¬(ds.status ≠
        { ds.status with dataBackupRef := getDataBackupRef db.name db.nspace } ∧
        env.datasetStatusUpdateOk = false) := by
      rcases hok with h | h
      · exact fun hcontra => hcontra.1 h
      · exact fun hcontra => absurd h (by simp [hcontra.2])
    rw [if_neg hno, if_pos hup]
    exact ⟨rfl, rfl⟩

/-- C3 witness: request `r1` against the unlocked dataset: the dataset write
is needed; with it rejected the reconciler requeues after 20 seconds, and
with it accepted the phase moves to Executing with an immediate requeue. -/
theorem pending_lock_acquisition_witness :
    (reconcilePendingDataBackup dbR1 dsUnlocked
        { envAllOk with datasetStatusUpdateOk := false } =
      ⟨RequeueResult.afterInterval 20, none, none⟩) ∧
    (reconcilePendingDataBackup dbR1 dsUnlocked envAllOk).result =
      RequeueResult.immediately ∧
    (reconcilePendingDataBackup dbR1 dsUnlocked envAllOk).dbStatus =
      some { dbR1.status with phase := Phase.executing } := by
  refine ⟨?_, ?_⟩
  · exact (pending_lock_acquisition dbR1 dsUnlocked
      { envAllOk with datasetStatusUpdateOk := false }
      (by decide) (by decide) rfl (by decide)).1 (by decide) rfl
  · exact (pending_lock_acquisition dbR1 dsUnlocked envAllOk
      (by decide) (by decide) rfl (by decide)).2 (Or.inr rfl) rfl

/-- C4: whenever a Pending reconciliation persists a status with
`Phase = Executing`, the dataset's lock field after that reconciliation
(the persisted write, or the unchanged status when no write was needed)
equals exactly this request's reference; and the only dataset write the
reconciler ever makes is the full-reference update — a rejected write
persists nothing. -/
theorem pending_lock_all_or_nothing (db : DataBackup) (ds : Dataset) (env : PendingEnv) :
    (∀ s, (reconcilePendingDataBackup db ds env).dbStatus = some s →
      s.phase = Phase.executing →
      (((reconcilePendingDataBackup db ds env).dsStatus.getD ds.status).dataBackupRef =
        getDataBackupRef db.name db.nspace)) ∧
    ((reconcilePendingDataBackup db ds env).dsStatus = none ∨
      (reconcilePendingDataBackup db ds env).dsStatus =
        some { ds.status with dataBackupRef := getDataBackupRef db.name db.nspace }) := by
  constructor
  · unfold reconcilePendingDataBackup
    dsimp only
    repeat' split
    all_goals intro s hs hphase
    all_goals
      first
      | exact Option.noConfusion hs
      | (injection hs with hs2; subst hs2; simp at hphase)
    all_goals
      first
      | rfl
      | (rename_i hnw
         exact congrArg DatasetStatus.dataBackupRef (not_not.mp hnw))
  · unfold reconcilePendingDataBackup
    dsimp only
    repeat' split
    all_goals first | exact Or.inl rfl | exact Or.inr rfl

/-- C5: when the backup pod is found terminal (succeeded or failed) and the
status write is accepted, the persisted status carries
`Duration = calculateDuration(creationTimestamp, t)` where `t` is the first
pod condition's `LastTransitionTime` (the current time when the pod has no
conditions); the duration is non-negative whenever the creation time is not
after that terminal time, and the reconciler requeues immediately. -/
theorem executing_duration (db : DataBackup) (ds : Dataset) (env : ExecutingEnv)
    (pod : Pod) (mp : Pod)
    (hrep : (getRuntimeByCategory ds.status.runtimes accelerateCategory).2.masterReplicas ≤ 1)
    (hmp : env.getMasterPod = Except.ok mp)
    (hcr : env.checkRelease = Except.ok true)
    (hbp : env.getBackupPod = Except.ok pod)
    (hterm : isSucceededPod pod = true ∨ isFailedPod pod = true)
    (hup : env.dbStatusUpdateOk = true) :
    ∃ s, (reconcileExecutingDataBackup db ds env).dbStatus = some s ∧
      s.duration = calculateDuration db.creationTimestamp (terminalTime pod env.now) ∧
      (db.creationTimestamp ≤ terminalTime pod env.now → 0 ≤ s.duration) ∧
      (reconcileExecutingDataBackup db ds env).result = RequeueResult.immediately := by
  have hout : reconcileExecutingDataBackup db ds env =
      executingAfterResolve db env (ds.name ++ "-master-0") false := by
    unfold reconcileExecutingDataBackup
    rw [if_pos hrep]
  rw [hout]
  unfold executingAfterResolve
  rw [hmp, hcr, hbp]
  dsimp only
  rcases hterm with hterm | hterm
  · rw [if_pos hterm, if_pos hup]
    refine ⟨_, rfl, rfl, fun hle => ?_, rfl⟩
    simpa [calculateDuration] using hle
  · by_cases hsucc : isSucceededPod pod = true
    · rw [if_pos hsucc, if_pos hup]
      refine ⟨_, rfl, rfl, fun hle => ?_, rfl⟩
      simpa [calculateDuration] using hle
    · rw [if_neg hsucc, if_pos hterm, if_pos hup]
      refine ⟨_, rfl, rfl, fun hle => ?_, rfl⟩
      simpa [calculateDuration] using hle

/-- A concrete master pod (running). -/
def masterPodRunning : Pod := { phase := "Running", conditions := [] }

/-- A concrete succeeded backup pod whose first condition transitioned at
time 50. -/
def backupPodSucceeded : Pod := { phase := "Succeeded", conditions := [⟨50⟩] }

/-- A concrete Executing-phase environment: release installed, backup pod
succeeded, write accepted, clock at 60. -/
def envExecOk : ExecutingEnv :=
  { masterPodNameResult := Except.ok "d-master-0",
    getMasterPod := Except.ok masterPodRunning,
    checkRelease := Except.ok true,
    genValueFile := Except.ok "values.yaml",
    installOk := true,
    getBackupPod := Except.ok backupPodSucceeded,
    dbStatusUpdateOk := true,
    now := 60 }

/-- A concrete dataset bound to a single-master alluxio runtime. -/
def dsSingleMaster : Dataset :=
  { name := "d", nspace := "ns",
    status := { dataBackupRef := "ns-r1", runtimes := [⟨"alluxio", "Accelerate", 1⟩] } }

/-- A concrete Executing-phase request created at time 10. -/
def dbExec : DataBackup :=
  { dbR1 with creationTimestamp := 10, status := { dbR1.status with phase := Phase.executing } }

/-- C5 witness: the request created at 10 with the backup pod succeeded at
50: the persisted duration is `calculateDuration 10 50` and non-negative. -/
theorem executing_duration_witness :
    ∃ s, (reconcileExecutingDataBackup dbExec dsSingleMaster envExecOk).dbStatus = some s ∧
      s.duration = calculateDuration dbExec.creationTimestamp
        (terminalTime backupPodSucceeded envExecOk.now) ∧
      (dbExec.creationTimestamp ≤ terminalTime backupPodSucceeded envExecOk.now →
        0 ≤ s.duration) ∧
      (reconcileExecutingDataBackup dbExec dsSingleMaster envExecOk).result =
        RequeueResult.immediately :=
  executing_duration dbExec dsSingleMaster envExecOk backupPodSucceeded masterPodRunning
    (by decide) rfl rfl rfl (Or.inl rfl) rfl

/-- Every leaf of `executingAfterResolve` reports the pod name and query
flag it was given. -/
theorem executingAfterResolve_resolution (db : DataBackup) (env : ExecutingEnv)
    (podName : String) (queried : Bool) :
    (executingAfterResolve db env podName queried).resolvedPodName = some podName ∧
    (executingAfterResolve db env podName queried).queriedMaster = queried := by
  unfold executingAfterResolve
  repeat' split
  all_goals exact ⟨rfl, rfl⟩

/-- C7: with at most one master replica the master pod name is resolved
deterministically as `<dataset name>-master-0` and the runtime is not
queried; the runtime is queried only when it reports more than one replica;
and in that HA case (for a supported runtime type) a leader-query error
makes the reconciler return an error requeue without persisting anything. -/
theorem executing_master_resolution (db : DataBackup) (ds : Dataset) (env : ExecutingEnv) :
    ((getRuntimeByCategory ds.status.runtimes accelerateCategory).2.masterReplicas ≤ 1 →
      (reconcileExecutingDataBackup db ds env).resolvedPodName =
        some (ds.name ++ "-master-0") ∧
      (reconcileExecutingDataBackup db ds env).queriedMaster = false) ∧
    ((reconcileExecutingDataBackup db ds env).queriedMaster = true →
      1 < (getRuntimeByCategory ds.status.runtimes accelerateCategory).2.masterReplicas) ∧
    (1 < (getRuntimeByCategory ds.status.runtimes accelerateCategory).2.masterReplicas →
      ((getRuntimeByCategory ds.status.runtimes accelerateCategory).2.rtype =
          alluxioRuntimeType ∨
        (getRuntimeByCategory ds.status.runtimes accelerateCategory).2.rtype =
          goosefsRuntimeType) →
      env.masterPodNameResult = Except.error () →
      reconcileExecutingDataBackup db ds env =
        ⟨RequeueResult.onError, none, none, true⟩) := by
  refine ⟨?_, ?_, ?_⟩
  · intro hrep
    unfold reconcileExecutingDataBackup
    rw [if_pos hrep]
    exact executingAfterResolve_resolution db env (ds.name ++ "-master-0") false
  · intro hq
    by_contra hrep
    push_neg at hrep
    unfold reconcileExecutingDataBackup at hq
    rw [if_pos hrep] at hq
    rw [(executingAfterResolve_resolution db env (ds.name ++ "-master-0") false).2] at hq
    exact Bool.false_ne_true hq
  · intro hrep hsup herr
    unfold reconcileExecutingDataBackup
    rw [if_neg (by omega), if_pos hsup, herr]

/-- C6: the deletion reconciler performs release deletion, lock release and
finalizer removal strictly in that order: a failing step returns an error
requeue with the later steps not executed (in particular the finalizer
survives any earlier failure), and when everything succeeds the result is
no-requeue with the finalizer removed. -/
theorem deletion_step_order (db : DataBackup) (env : DeletionEnv) :
    (env.deleteReleaseOk = false →
      ReconcileDataBackupDeletion db env =
        ⟨RequeueResult.onError, false, false, false, db.finalizers⟩) ∧
    (env.deleteReleaseOk = true → env.releaseLockOk = false →
      ReconcileDataBackupDeletion db env =
        ⟨RequeueResult.onError, true, false, false, db.finalizers⟩) ∧
    (env.deleteReleaseOk = true → env.releaseLockOk = true →
      db.hasDeletionTimestamp = true → env.updateOk = false →
      ReconcileDataBackupDeletion db env =
        ⟨RequeueResult.onError, true, true, false, db.finalizers⟩) ∧
    (env.deleteReleaseOk = true → env.releaseLockOk = true →
      db.hasDeletionTimestamp = true → env.updateOk = true →
      ReconcileDataBackupDeletion db env =
        ⟨RequeueResult.noRequeue, true, true, true,
          removeString db.finalizers dataBackupFinalizer⟩) ∧
    ((ReconcileDataBackupDeletion db env).result = RequeueResult.noRequeue →
      env.deleteReleaseOk = true ∧ env.releaseLockOk = true) := by
  refine ⟨?_, ?_, ?_, ?_, ?_⟩
  · intro h1
    simp [ReconcileDataBackupDeletion, h1]
  · intro h1 h2
    simp [ReconcileDataBackupDeletion, h1, h2]
  · intro h1 h2 h3 h4
    simp [ReconcileDataBackupDeletion, h1, h2, h3, h4]
  · intro h1 h2 h3 h4
    simp [ReconcileDataBackupDeletion, h1, h2, h3, h4]
  · intro hres
    unfold ReconcileDataBackupDeletion at hres
    repeat' split at hres
    all_goals simp_all

/-- `splitOnCharAux` always yields at least one piece. -/
theorem splitOnCharAux_length_pos (sep : Char) (l : List Char) :
    1 ≤ (splitOnCharAux sep l).length := by
  induction l with
  | nil => simp [splitOnCharAux]
  | cons c rest ih =>
    simp only [splitOnCharAux]
    split
    · simp
    · split
      · simp
      · simp

/-- Splitting a list free of the separator yields exactly that list. -/
theorem splitOnCharAux_of_not_mem (sep : Char) (l : List Char) (h : sep ∉ l) :
    splitOnCharAux sep l = [l] := by
  induction l with
  | nil => rfl
  | cons c rest ih =>
    have hc : ¬ c = sep := fun hcEq => h (by simp [hcEq])
    have hr : sep ∉ rest := fun hm => h (List.mem_cons_of_mem c hm)
    simp only [splitOnCharAux, ih hr]
    rw [if_neg hc]

/-- `goSplit` always yields at least one piece (as Go's `strings.Split`
does for a non-empty separator). -/
theorem goSplit_length_pos (s : String) (sep : Char) : 1 ≤ (goSplit s sep).length := by
  simpa [goSplit] using splitOnCharAux_length_pos sep s.data

/-- Splitting a string that does not contain the separator yields the
one-element list holding the string itself. -/
theorem goSplit_of_not_mem (s : String) (sep : Char) (h : sep ∉ s.data) :
    goSplit s sep = [String.mk s.data] := by
  simp [goSplit, splitOnCharAux_of_not_mem sep s.data h]

/-- C10: splitting any default image string on `':'` yields at least one
element, so the guard `len(defaultImageInfo) < 1` never fires; and for
every default image string without a `':'` the split is a single-element
slice, position 1 is out of bounds, and the tag fallback
(`defaultImageInfo[1]`) panics. -/
theorem default_image_tag_index_out_of_range (s : String) :
    1 ≤ (goSplit s ':').length ∧
    ¬ (goSplit s ':').length < 1 ∧
    (':' ∉ s.data →
      (goSplit s ':').length = 1 ∧
      (goSplit s ':').get? 1 = none ∧
      resolveImageFromDefault "" s 1 = ImageStep.panicked) := by
  have hpos := goSplit_length_pos s ':'
  refine ⟨hpos, by omega, fun hnc => ?_⟩
  have hsplit := goSplit_of_not_mem s ':' hnc
  refine ⟨by rw [hsplit]; rfl, by rw [hsplit]; rfl, ?_⟩
  unfold resolveImageFromDefault
  rw [if_pos (by rfl), hsplit]
  rfl

/-- C10 witness: the colon-free default image string `alluxio` splits into
one piece and its tag lookup panics. -/
theorem default_image_tag_index_out_of_range_witness :
    1 ≤ (goSplit "alluxio" ':').length ∧
    (goSplit "alluxio" ':').length = 1 ∧
    resolveImageFromDefault "" "alluxio" 1 = ImageStep.panicked := by
  have h := default_image_tag_index_out_of_range "alluxio"
  exact ⟨h.1, (h.2.2 (by decide)).1, (h.2.2 (by decide)).2.2⟩

/-- A GenEnv in which every image source is empty, so configuration must
fall back to the hard-coded default image — here a malformed (colon-free)
one for alluxio. -/
def envGenMalformed : GenEnv :=
  { nodeName := "node1", ip := "10.0.0.7", rpcPort := 19998,
    getDataset := Except.ok dsSingleMaster,
    workerImage := ("", ""),
    getImageRepoFromEnv := fun _ => "",
    getImageTagFromEnv := fun _ => "",
    defaultAlluxioImage := "alluxio-default-image-without-colon",
    defaultGooseFSImage := "goosefs/goosefs:v1",
    workdirEnv := "",
    getRuntime := Except.error (),
    parseInitImage := fun a b c => (a, b, c),
    marshalOk := true,
    tempFileResult := Except.ok "/tmp/values.yaml",
    writeFileOk := true }

/-- C8: with a malformed (colon-free) hard-coded default image and all
other image sources empty, `generateDataBackupValueFile` panics with an
index out of range instead of returning an image-configuration error; and
the `len(defaultImageInfo) < 1` guards (whose naked `return` would anyway
hand back a nil error) can never fire on any input. -/
theorem gen_malformed_default_image_panics :
    generateDataBackupValueFile dbR1 envGenMalformed = GenResult.panicked ∧
    (∀ fromEnv s i, resolveImageFromDefault fromEnv s i ≠ ImageStep.emptyReturn) := by
  constructor
  · rfl
  · intro fromEnv s i
    unfold resolveImageFromDefault
    split
    · rw [if_neg (by have := goSplit_length_pos s ':'; omega)]
      split <;> simp
    · simp

/-- A concrete dataset with no bound runtime at all (so none with the
accelerate category). -/
def dsNoAccel : Dataset :=
  { name := "d", nspace := "ns", status := { dataBackupRef := "", runtimes := [] } }

/-- A GenEnv whose dataset get returns the accelerate-less dataset. -/
def envGenNoRuntime : GenEnv :=
  { envGenMalformed with getDataset := Except.ok dsNoAccel }

/-- C9 counterexample: when the dataset has no bound runtime with the
accelerate category, `generateDataBackupValueFile` does abort with an
explicit error (`noBoundedRuntime`) rather than continuing with
empty/default values. -/
theorem gen_missing_binding_aborts_counterexample :
    (getRuntimeByCategory dsNoAccel.status.runtimes accelerateCategory).1 = -1 ∧
    generateDataBackupValueFile dbR1 envGenNoRuntime =
      GenResult.err GenError.noBoundedRuntime := by
  exact ⟨rfl, rfl⟩

/-- A recognized backup path always parses. -/
theorem parseBackupRestorePath_ok (p : String)
    (h : goStartsWith p pathScheme = true ∨ goStartsWith p volumeScheme = true) :
    ∃ pr, parseBackupRestorePath p = Except.ok pr := by
  unfold parseBackupRestorePath
  by_cases hv : goStartsWith p volumeScheme = true
  · rw [if_pos hv]
    split
    · rename_i heq
      have hpos := goSplit_length_pos (String.mk (p.data.drop volumeScheme.length)) '/'
      rw [heq] at hpos
      simp at hpos
    · exact ⟨_, rfl⟩
  · rcases h with h | h
    · rw [if_neg hv, if_pos h]
      exact ⟨_, rfl⟩
    · exact absurd h hv

/-- C9 amended: when the dataset does have an accelerate-category binding
but its runtime type is unsupported, the type switch does not abort:
derivation continues with empty runtime-dependent values (runtime type and
java environment both empty) and — provided the remaining fallbacks and
I/O succeed, e.g. an environment-supplied image tag is present — still
produces a value file. -/
theorem gen_unsupported_type_continues (db : DataBackup) (env : GenEnv) (ds : Dataset)
    (fname : String)
    (hds : env.getDataset = Except.ok ds)
    (hidx : ¬ (getRuntimeByCategory ds.status.runtimes accelerateCategory).1 = -1)
    (hal : ¬ (getRuntimeByCategory ds.status.runtimes accelerateCategory).2.rtype =
      alluxioRuntimeType)
    (hgo : ¬ (getRuntimeByCategory ds.status.runtimes accelerateCategory).2.rtype =
      goosefsRuntimeType)
    (hrepo : env.getImageRepoFromEnv "" = "")
    (htag : ¬ (env.getImageTagFromEnv "").length = 0)
    (hpath : goStartsWith db.spec.backupPath pathScheme = true ∨
      goStartsWith db.spec.backupPath volumeScheme = true)
    (hmarshal : env.marshalOk = true)
    (htmp : env.tempFileResult = Except.ok fname)
    (hwrite : env.writeFileOk = true) :
    ∃ value, generateDataBackupValueFile db env = GenResult.ok fname value ∧
      value.dataBackup.runtimeType = "" ∧
      value.dataBackup.javaEnv = "" := by
  obtain ⟨pr, hpr⟩ := parseBackupRestorePath_ok db.spec.backupPath hpath
  unfold generateDataBackupValueFile
  rw [hds]
  dsimp only
  rw [if_neg hidx, if_neg hal, if_neg hgo]
  dsimp only
  have hfb : imageFallbackDefaults "" env = ("", "") := by
    simp [imageFallbackDefaults, alluxioRuntimeType, goosefsRuntimeType]
  have hname : resolveImageFromDefault "" "" 0 = ImageStep.ok "" := rfl
  have htagstep : resolveImageFromDefault (env.getImageTagFromEnv "") "" 1 =
      ImageStep.ok (env.getImageTagFromEnv "") := by
    unfold resolveImageFromDefault
    rw [if_neg htag]
  simp only [hfb, hrepo, hname, htagstep, hpr, hmarshal, htmp, hwrite,
    String.length, String.data, List.length_nil, if_pos, reduceCtorEq]
  norm_num

/-- A GenEnv bound to an unsupported runtime type whose image tag is
supplied by the environment. -/
def envGenUnsupported : GenEnv :=
  { envGenMalformed with
    getDataset := Except.ok
      { name := "d", nspace := "ns",
        status := { dataBackupRef := "", runtimes := [⟨"jindo", "Accelerate", 1⟩] } },
    getImageTagFromEnv := fun _ => "v2.8.0" }

/-- C9 witness: the amended statement instantiated at a dataset bound to an
unsupported `jindo` runtime: a value file is produced with empty runtime
type and java environment. -/
theorem gen_unsupported_type_continues_witness :
    ∃ value, generateDataBackupValueFile dbR1 envGenUnsupported =
        GenResult.ok "/tmp/values.yaml" value ∧
      value.dataBackup.runtimeType = "" ∧
      value.dataBackup.javaEnv = "" :=
  gen_unsupported_type_continues dbR1 envGenUnsupported
    { name := "d", nspace := "ns",
      status := { dataBackupRef := "", runtimes := [⟨"jindo", "Accelerate", 1⟩] } }
    "/tmp/values.yaml" rfl (by decide) (by decide) (by decide) rfl (by decide)
    (Or.inr (by decide)) rfl rfl rfl

end DataBackupVerify
